import Mathlib

/-!
Verification development for the demand-collection pipeline
(`backend/app/collectors/*.py` and `backend/app/api/collect.py`).

Text is modelled as `List Char`; Python `kw in text` substring tests are
`containsSub`, Python `str.lower()` is `lower`, and Python truthiness of an
optional string is `truthy`.  Floating-point `upvote_ratio` is modelled as a
rational number; every concrete input used below is exactly representable in
binary floating point, so the rational model agrees with the source at those
points.  `list(set(xs))` is modelled as `xs.dedup`: the Python set iteration
order is unspecified, and `dedup` is a canonical representative preserving
membership and duplicate-freedom, which is all the properties below use.
-/

/-- Text, modelled as a list of characters. -/
abbrev Text := List Char

/-- Python `str.lower()` (all inputs considered here are ASCII). -/
def lower (t : Text) : Text := t.map Char.toLower

/-- Python `needle in haystack` substring containment. -/
def containsSub (needle : Text) : Text → Bool
  | [] => needle.isEmpty
  | c :: rest => needle.isPrefixOf (c :: rest) || containsSub needle rest

/-- Python `any(kw in text for kw in kws)`. -/
def containsAny (t : Text) (keywordList : List Text) : Bool :=
  keywordList.any (fun kw => containsSub kw t)

/-- Convert a list of string literals to keyword texts. -/
def kws (l : List String) : List Text := l.map String.toList

/-- Python truthiness of an `Optional[str]` (`None` and `""` are falsy). -/
def truthy : Option Text → Bool
  | none => false
  | some t => !t.isEmpty

/-- Python `a or b` for `a : Optional[str]` with a string fallback. -/
def pyOr (a : Option Text) (b : Text) : Text :=
  match a with
  | some s => if s.isEmpty then b else s
  | none => b

/-- Python `int()` applied to a rational value: truncation toward zero. -/
def pyInt (q : ℚ) : ℤ := if 0 ≤ q then ⌊q⌋ else ⌈q⌉

/-- Python `str.capitalize()`: first character upper-cased, rest lower-cased. -/
def capitalizeText : Text → Text
  | [] => []
  | c :: rest => c.toUpper :: rest.map Char.toLower

/-- `_analyze_sentiment` (shared verbatim by all three collectors): maps the
third-party compound polarity score to a label and magnitude. -/
def analyzeSentiment (compound : ℚ) : Text × ℚ :=
  if 5/100 ≤ compound then ("positive".toList, compound)
  else if compound ≤ -(5/100) then ("negative".toList, |compound|)
  else ("neutral".toList, 1/2)

/-- The normalized record built by the collectors (the dict passed to
`Demand(**data)`); platform-specific keys are optional fields, absent keys
become `none` (the corresponding DB columns are nullable with no default
besides null). -/
structure NormalizedDemand where
  content : Text
  title : Option Text
  platform : Text
  sourceUrl : Text
  author : Option Text
  authorUrl : Option Text
  timestamp : ℤ
  upvotes : ℤ
  comments : ℤ
  shares : ℤ
  interactionScore : ℤ
  sentiment : Text
  sentimentScore : ℚ
  tags : List Text
  productMentioned : List Text
  category : Text
  subreddit : Option Text
  repository : Option Text
  issueNumber : Option ℤ
  language : Text

namespace RedditCollector

/-- `self.subreddits` from `RedditCollector.__init__`. -/
def subreddits : List Text := kws [
  "webdev", "webdevtools", "SaaS",
  "UIUC", "technology", "Productivity",
  "selfhosted", "sysadmin", "Programming",
  "devops", "learnprogramming", "coding",
  "software", "softwaredevelopment", "startups",
  "entrepreneur", "entrepreneurship",
  "ProductHunt", "SideProject", "IndieHackers",
  "apps", "ios", "android", "webapp",
  "webdesign", "design", "UXDesign",
  "privacy", "security", "privacytools"]

/-- `self.request_keywords`. -/
def requestKeywords : List Text := kws [
  "feature request", "missing", "need", "should have", "wish",
  "want", "why no", "does anyone have", "looking for", "suggestion",
  "implement", "add feature", "support", "integrate"]

/-- `self.complaint_keywords`. -/
def complaintKeywords : List Text := kws [
  "hate", "frustrating", "annoying", "useless", "broken",
  "sucks", "terrible", "worst", "slow", "lag",
  "bug", "crash", "error", "fail", "problem"]

/-- `bug_keywords` local to `_categorize_post`. -/
def bugKeywords : List Text := kws [
  "bug", "crash", "error", "doesn\x27t work", "not working", "glitch"]

/-- `praise_keywords` local to `_categorize_post`. -/
def praiseKeywords : List Text := kws [
  "love", "great", "amazing", "awesome", "perfect", "best", "thanks"]

/-- `discussion_keywords` local to `_categorize_post`. -/
def discussionKeywords : List Text := kws [
  "how", "what", "why", "anyone", "experience", "opinion"]

/-- `RedditCollector._categorize_post(content, title)`. -/
def categorizePost (content title : Text) : Option Text :=
  let fullText := lower (title ++ ' ' :: content)
  if containsAny fullText requestKeywords then some "feature-request".toList
  else if containsAny fullText complaintKeywords then some "complaint".toList
  else if containsAny fullText bugKeywords then some "bug-report".toList
  else if containsAny fullText praiseKeywords then some "praise".toList
  else if containsAny fullText discussionKeywords then some "discussion".toList
  else none

/-- The `feature_tags` table of `RedditCollector._extract_tags`. -/
def featureTags : List (Text × List Text) := [
  ("offline".toList, kws ["offline", "offline mode", "no internet", "without connection"]),
  ("sync".toList, kws ["sync", "synchronize", "syncing"]),
  ("export".toList, kws ["export", "download", "backup"]),
  ("import".toList, kws ["import", "migrate", "transfer"]),
  ("api".toList, kws ["api", "webhook", "integration"]),
  ("mobile".toList, kws ["mobile", "ios", "android", "app"]),
  ("collaboration".toList, kws ["collaborate", "team", "share", "real-time"]),
  ("pricing".toList, kws ["pricing", "cost", "expensive", "cheap", "free"]),
  ("performance".toList, kws ["slow", "lag", "performance", "speed"]),
  ("ui".toList, kws ["ui", "design", "interface", "dark mode", "theme"]),
  ("security".toList, kws ["security", "privacy", "encryption", "2fa"])]

/-- `RedditCollector._extract_tags(content, title, category)`: starts from
`[category]`, appends every tag whose keyword list hits the lowercased
title+content, then `list(set(...))`. -/
def extractTags (content title category : Text) : List Text :=
  let fullText := lower (title ++ ' ' :: content)
  (category :: (featureTags.filter (fun p => containsAny fullText p.2)).map (fun p => p.1)).dedup

/-- The product vocabulary of `RedditCollector._extract_product_mentions`. -/
def products : List Text := kws [
  "notion", "figma", "github", "gitlab", "linear", "jira", "trello",
  "slack", "discord", "zoom", "teams", "gmail", "outlook",
  "vscode", "intellij", "vim", "emacs", "xcode",
  "chrome", "firefox", "safari", "edge",
  "aws", "azure", "gcp", "heroku", "vercel", "netlify",
  "docker", "kubernetes", "terraform", "ansible",
  "react", "vue", "angular", "svelte", "nextjs", "nuxt",
  "python", "javascript", "typescript", "java", "go", "rust",
  "mongodb", "postgresql", "mysql", "redis", "elasticsearch"]

/-- `RedditCollector._extract_product_mentions(text)`. -/
def extractProductMentions (text : Text) : List Text :=
  let t := lower text
  ((products.filter (fun p => containsSub p t)).map capitalizeText).dedup

/-- A PRAW submission, restricted to the fields `_parse_submission` reads.
`score` and `num_comments` are machine integers; `upvote_ratio` is a float,
modelled as a rational; `created_utc` is an epoch number. -/
structure Submission where
  selftext : Text
  title : Text
  score : ℤ
  upvoteRatio : ℚ
  numComments : ℤ
  permalink : Text
  author : Option Text
  createdUtc : ℤ
  subredditName : Text

/-- `content = submission.selftext if submission.selftext else submission.title`. -/
def contentOf (s : Submission) : Text :=
  if s.selftext.isEmpty then s.title else s.selftext

/-- `RedditCollector._parse_submission(submission, subreddit)`.
`compoundOf` stands for the third-party VADER analyzer
(`polarity_scores(text)["compound"]`), the only external call in the body.
Returns `none` exactly when the classifier rejects the item. -/
def parseSubmission (compoundOf : Text → ℚ) (subredditArg : Option Text)
    (s : Submission) : Option NormalizedDemand :=
  let content := contentOf s
  match categorizePost content s.title with
  | none => none
  | some category =>
    let fullText := s.title ++ ' ' :: content
    let sres := analyzeSentiment (compoundOf fullText)
    let prods := extractProductMentions fullText
    let tags := extractTags content s.title category
    let interactionScore : ℚ := s.upvoteRatio * (s.score : ℚ) + (s.numComments : ℚ) * 2
    some {
      content := content
      title := some s.title
      platform := "reddit".toList
      sourceUrl := "https://reddit.com".toList ++ s.permalink
      author := some (match s.author with
        | some a => a
        | none => "[deleted]".toList)
      authorUrl := s.author.map (fun a => "https://reddit.com/user/".toList ++ a)
      timestamp := s.createdUtc
      upvotes := s.score
      comments := s.numComments
      shares := 0
      interactionScore := pyInt interactionScore
      sentiment := sres.1
      sentimentScore := sres.2
      tags := tags
      productMentioned := prods
      category := category
      subreddit := some (pyOr subredditArg s.subredditName)
      repository := none
      issueNumber := none
      language := "en".toList }

/-- The `interaction_score` expression of `_parse_submission` in isolation:
`int(submission.upvote_ratio * submission.score + submission.num_comments * 2)`. -/
def interactionScore (upvoteRatio : ℚ) (score numComments : ℤ) : ℤ :=
  pyInt (upvoteRatio * (score : ℚ) + (numComments : ℚ) * 2)

end RedditCollector

namespace GitHubCollector

/-- `self.popular_repos` from `GitHubCollector.__init__`. -/
def popularRepos : List Text := kws [
  "facebook/react", "vuejs/core", "angular/angular", "microsoft/vscode",
  "notionhq/notion-sdk-js", "vercel/next.js", "tailwindlabs/tailwindcss",
  "prisma/prisma", "typeorm/typeorm", "facebook/jest", "airbnb/javascript",
  "github/docs", "hashicorp/terraform", "elastic/elasticsearch"]

/-- Label test for the feature branch of `_categorize_issue`:
`"enhancement" in label_name or "feature" in label_name or "request" in label_name`
(on the lower-cased label name). -/
def labelFeature (name : Text) : Bool :=
  containsSub "enhancement".toList name || containsSub "feature".toList name ||
    containsSub "request".toList name

/-- Label test for the bug branch of `_categorize_issue`:
`"bug" in label_name or "error" in label_name or "crash" in label_name`. -/
def labelBug (name : Text) : Bool :=
  containsSub "bug".toList name || containsSub "error".toList name ||
    containsSub "crash".toList name

/-- The label loop of `_categorize_issue`: iterate the labels in order and
return on the first hit, testing the feature branch before the bug branch. -/
def labelScan : List Text → Option Text
  | [] => none
  | l :: ls =>
    let n := lower l
    if labelFeature n then some "feature-request".toList
    else if labelBug n then some "bug-report".toList
    else labelScan ls

/-- `feature_keywords` local to `_categorize_issue`. -/
def featureKeywords : List Text := kws [
  "add feature", "feature request", "would be nice", "support for", "implement"]

/-- `bug_keywords` local to `_categorize_issue`. -/
def bugKeywords : List Text := kws [
  "bug", "issue", "problem", "doesn\x27t work", "not working", "broken"]

/-- `GitHubCollector._categorize_issue(content, title, labels)`; labels are
modelled by their `.name` strings. -/
def categorizeIssue (content title : Text) (labels : List Text) : Option Text :=
  let fullText := lower (title ++ ' ' :: content)
  match labelScan labels with
  | some c => some c
  | none =>
    if containsAny fullText featureKeywords then some "feature-request".toList
    else if containsAny fullText bugKeywords then some "bug-report".toList
    else none

/-- `GitHubCollector._extract_labels(labels)`: the raw `.name` of every label,
in order, with no deduplication. -/
def extractLabels (labels : List Text) : List Text := labels

/-- The `feature_tags` table of `GitHubCollector._extract_tags`. -/
def featureTags : List (Text × List Text) := [
  ("documentation".toList, kws ["docs", "documentation", "readme", "tutorial"]),
  ("performance".toList, kws ["slow", "performance", "optimize", "speed", "lag"]),
  ("ui".toList, kws ["ui", "design", "interface", "css", "style"]),
  ("security".toList, kws ["security", "vulnerability", "cve", "exploit"]),
  ("compatibility".toList, kws ["compatible", "version", "browser", "platform"]),
  ("testing".toList, kws ["test", "unit test", "integration", "e2e"])]

/-- `GitHubCollector._extract_tags(content, title, category)`. -/
def extractTags (content title category : Text) : List Text :=
  let fullText := lower (title ++ ' ' :: content)
  (category :: (featureTags.filter (fun p => containsAny fullText p.2)).map (fun p => p.1)).dedup

/-- A GitHub issue, restricted to the fields `_parse_issue` reads; labels are
modelled by their names, the user by its login and profile URL. -/
structure Issue where
  title : Text
  body : Option Text
  labels : List Text
  reactionsTotalCount : ℤ
  commentsCount : ℤ
  htmlUrl : Text
  userLogin : Option Text
  userHtmlUrl : Option Text
  createdAt : ℤ
  number : ℤ
  repositoryFullName : Option Text

/-- `GitHubCollector._parse_issue(issue, repo_name)`; `compoundOf` stands for
the third-party VADER analyzer.  Returns `none` when the classified category
is not `feature-request` or `bug-report` (which includes the classifier
returning no category at all). -/
def parseIssue (compoundOf : Text → ℚ) (repoNameArg : Option Text)
    (i : Issue) : Option NormalizedDemand :=
  let content := i.body.getD []
  let category? := categorizeIssue content i.title i.labels
  match category? with
  | none => none
  | some category =>
    if category ≠ "feature-request".toList ∧ category ≠ "bug-report".toList then none
    else
      let fullText := i.title ++ ' ' :: content
      let sres := analyzeSentiment (compoundOf fullText)
      let tags := extractLabels i.labels ++ extractTags content i.title category
      let interactionScore := i.reactionsTotalCount + i.commentsCount * 2
      let repoName := match repoNameArg with
        | some r => some r
        | none => i.repositoryFullName
      some {
        content := content
        title := some i.title
        platform := "github".toList
        sourceUrl := i.htmlUrl
        author := i.userLogin
        authorUrl := i.userHtmlUrl
        timestamp := i.createdAt
        upvotes := i.reactionsTotalCount
        comments := i.commentsCount
        shares := 0
        interactionScore := interactionScore
        sentiment := sres.1
        sentimentScore := sres.2
        tags := tags
        productMentioned := match repoName with
          | some r => if r.isEmpty then [] else [r]
          | none => []
        category := category
        subreddit := none
        repository := repoName
        issueNumber := some i.number
        language := "en".toList }

end GitHubCollector

namespace TwitterCollector

/-- `request_keywords` local to `_categorize_tweet`. -/
def requestKeywords : List Text := kws [
  "feature request", "missing", "need", "should have", "wish",
  "want", "why no", "please add", "implement", "support"]

/-- `complaint_keywords` local to `_categorize_tweet`. -/
def complaintKeywords : List Text := kws [
  "hate", "frustrating", "annoying", "useless", "broken",
  "sucks", "terrible", "worst", "slow", "lag"]

/-- `discussion_keywords` local to `_categorize_tweet`. -/
def discussionKeywords : List Text := kws [
  "how", "what", "why", "anyone", "experience", "opinion",
  "thoughts", "feedback", "ideas"]

/-- `TwitterCollector._categorize_tweet(content)`. -/
def categorizeTweet (content : Text) : Option Text :=
  let contentLower := lower content
  if containsAny contentLower requestKeywords then some "feature-request".toList
  else if containsAny contentLower complaintKeywords then some "complaint".toList
  else if containsAny contentLower discussionKeywords then some "discussion".toList
  else none

/-- The `feature_tags` table of `TwitterCollector._extract_tags`. -/
def featureTags : List (Text × List Text) := [
  ("mobile".toList, kws ["mobile", "ios", "android", "app"]),
  ("api".toList, kws ["api", "integration", "webhook"]),
  ("ui".toList, kws ["ui", "design", "dark mode", "theme"]),
  ("pricing".toList, kws ["pricing", "cost", "expensive", "price"]),
  ("support".toList, kws ["support", "help", "customer service"]),
  ("privacy".toList, kws ["privacy", "data", "security"])]

/-- `TwitterCollector._extract_tags(content, category)`. -/
def extractTags (content category : Text) : List Text :=
  let contentLower := lower content
  (category :: (featureTags.filter (fun p => containsAny contentLower p.2)).map (fun p => p.1)).dedup

/-- `product_accounts` inside `_extract_product_mentions`. -/
def productAccounts : List Text := kws [
  "github", "notion", "figma", "vercel", "netlify", "slack",
  "discord", "zoom", "awscloud", "googlecloud", "docker",
  "kubernetesio", "gitlab", "realtwitter", "x"]

/-- `product_list` inside `_extract_product_mentions`. -/
def productList : List Text := kws [
  "notion", "figma", "github", "gitlab", "slack", "discord", "zoom",
  "aws", "azure", "gcp", "heroku", "vercel", "netlify",
  "docker", "kubernetes", "react", "vue", "angular", "nextjs"]

/-- `TwitterCollector._extract_product_mentions(entities, content)`; the
entities dict is modelled by the list of mentioned usernames (empty when the
dict is absent or has no mentions, which Python treats identically through
truthiness). -/
def extractProductMentions (mentions : List Text) (content : Text) : List Text :=
  let fromMentions := (mentions.filter (fun u => productAccounts.contains (lower u))).map
    (fun u => capitalizeText ('@' :: u))
  let contentLower := lower content
  productList.foldl
    (fun acc p =>
      if containsSub p contentLower && !(acc.contains (capitalizeText p)) then
        acc ++ [capitalizeText p]
      else acc)
    fromMentions

/-- A tweet, restricted to the fields `_parse_tweet` reads.  `public_metrics`
is a counter dict read with `.get(key, 0)`; it is modelled by its four
counters.  The numeric id is modelled as the text of its digits, since it is
only ever interpolated into the source URL. -/
structure Tweet where
  text : Text
  id : Text
  createdAt : ℤ
  likeCount : ℤ
  replyCount : ℤ
  retweetCount : ℤ
  quoteCount : ℤ
  mentions : List Text

/-- `TwitterCollector._parse_tweet(tweet, username)`; `compoundOf` stands for
the third-party VADER analyzer. -/
def parseTweet (compoundOf : Text → ℚ) (username : Option Text)
    (t : Tweet) : Option NormalizedDemand :=
  let content := t.text
  match categorizeTweet content with
  | none => none
  | some category =>
    let sres := analyzeSentiment (compoundOf content)
    let tags := extractTags content category
    let prods := extractProductMentions t.mentions content
    let interactionScore :=
      t.likeCount + t.replyCount * 2 + t.retweetCount * 3 + t.quoteCount * 2
    some {
      content := content
      title := none
      platform := "twitter".toList
      sourceUrl := "https://twitter.com/i/web/status/".toList ++ t.id
      author := username
      authorUrl := username.map (fun u => "https://twitter.com/".toList ++ u)
      timestamp := t.createdAt
      upvotes := t.likeCount
      comments := t.replyCount
      shares := t.retweetCount + t.quoteCount
      interactionScore := interactionScore
      sentiment := sres.1
      sentimentScore := sres.2
      tags := tags
      productMentioned := prods
      category := category
      subreddit := none
      repository := none
      issueNumber := none
      language := "en".toList }

end TwitterCollector

/-!  Fetch-mode dispatch.  Each `collect` method selects one of at most three
fetch paths; the selected path, with the fetch parameters the source hands to
it, is captured by a `FetchPlan`.  Auxiliary arguments each helper receives
unchanged (`query`/`time_filter` for Reddit targets, `state` for GitHub) are
kept in comments next to the corresponding plan function.  -/

/-- Which fetch path a `collect` invocation takes. -/
inductive FetchPlan where
  | targeted (name : Text) (lim : ℕ)
  | search (q : Text) (lim : ℕ)
  | sweep (names : List Text) (each : ℕ)
  | noFetch
  deriving DecidableEq

/-- The dispatch of `RedditCollector.collect(query, subreddit, time_filter,
limit)`: a truthy `subreddit` selects `_collect_from_subreddit(subreddit,
query, time_filter, limit)`; else a truthy `query` selects
`_search_reddit(query, time_filter, limit)`; else the sweep calls
`_collect_from_subreddit(sub, query, time_filter, limit // 5)` for each of
`self.subreddits[:5]`. -/
def RedditCollector.collectPlan (query subreddit : Option Text) (lim : ℕ) : FetchPlan :=
  if truthy subreddit then .targeted (subreddit.getD []) lim
  else if truthy query then .search (query.getD []) lim
  else .sweep (RedditCollector.subreddits.take 5) (lim / 5)

/-- The dispatch of `GitHubCollector.collect(query, repo, state, limit)`: a
truthy `repo` selects `_collect_from_repo(repo, state, limit)`; else a truthy
`query` selects `_search_github(query, state, limit)`; else the sweep calls
`_collect_from_repo(repository, state, limit // 5)` for each of
`self.popular_repos[:5]`. -/
def GitHubCollector.collectPlan (query repo : Option Text) (lim : ℕ) : FetchPlan :=
  if truthy repo then .targeted (repo.getD []) lim
  else if truthy query then .search (query.getD []) lim
  else .sweep (GitHubCollector.popularRepos.take 5) (lim / 5)

/-- The dispatch of `TwitterCollector.collect(query, user, count)`: with no
client configured the method returns `[]` before any dispatch; a truthy
`user` selects `_collect_from_user(user, count)`; else a truthy `query`
selects `_search_twitter(query, count)`; else the method prints a message and
returns `[]` (there is no sweep path and no curated account list). -/
def TwitterCollector.collectPlan (configured : Bool) (query user : Option Text)
    (count : ℕ) : FetchPlan :=
  if !configured then .noFetch
  else if truthy user then .targeted (user.getD []) count
  else if truthy query then .search (query.getD []) count
  else .noFetch

/-!  The ingestion coordinator, `collect_data` in `backend/app/api/collect.py`.  -/

/-- The platform enum of the request schema (`PlatformEnum`). -/
inductive Platform where
  | reddit
  | github
  | twitter
  | all
  deriving DecidableEq, BEq

/-- The keyword-argument names `collect_data` passes to
`collector.collect(...)` (lines 66-73 of `collect.py`). -/
def coordinatorKwargs : List String :=
  ["query", "subreddit", "repo", "user", "time_filter", "limit"]

/-- The parameter names each collector's `collect` accepts (besides `self`);
none of the signatures takes `**kwargs`. -/
def collectParams : Platform → List String
  | .reddit => ["query", "subreddit", "time_filter", "limit"]
  | .github => ["query", "repo", "state", "limit"]
  | .twitter => ["query", "user", "count"]
  | .all => []

/-- Python keyword-argument binding for `collector.collect(...)`: the call
binds (rather than raising `TypeError: unexpected keyword argument`) exactly
when every passed keyword names a parameter. -/
def callBindsOk (p : Platform) : Bool :=
  coordinatorKwargs.all (fun k => (collectParams p).contains k)

/-- The persist loop of `collect_data` (lines 76-90).  The session is created
with `autoflush=False`, so the per-record `SELECT ... WHERE source_url = ...`
sees only the store as committed before the run; records added earlier in the
same loop are pending and invisible to it.  Hence the records actually
inserted are the output records whose `source_url` is absent from the initial
store. -/
def newRecords {α : Type} (url : α → Text) (store output : List α) : List α :=
  output.filter (fun d => !(store.any (fun r => url r == url d)))

/-- Running the persist loop: the store after commit and `saved_count`. -/
def persistRun {α : Type} (url : α → Text) (store output : List α) :
    List α × ℕ :=
  (store ++ newRecords url store output, (newRecords url store output).length)

/-- Outcome of one `collect_data` request: an `HTTPException` with its status
code, or a success response carrying `collected_count` (= `saved_count`)
together with the committed store. -/
inductive CollectOutcome (α : Type) where
  | httpError (status : ℕ)
  | ok (savedCount : ℕ) (store : List α)
  deriving DecidableEq

/-- `collect_data(request, db)`: select the collector by platform (an
unsupported platform raises HTTP 400); reject an unconfigured Twitter with
HTTP 400 before invoking `collect`; then, inside the `try` block, call
`collector.collect(query=..., subreddit=..., repo=..., user=...,
time_filter=..., limit=...)` — when that keyword call fails to bind, the
resulting `TypeError` is caught by the blanket `except` and converted to HTTP
500; otherwise run the persist loop over the collector output and commit.
`collectorOutput` is the list `collect` would return were the call to bind. -/
def collectData {α : Type} (url : α → Text) (p : Platform)
    (twitterConfigured : Bool) (collectorOutput : List α) (store : List α) :
    CollectOutcome α :=
  match p with
  | .all => .httpError 400
  | _ =>
    if p == .twitter && !twitterConfigured then .httpError 400
    else if !callBindsOk p then .httpError 500
    else
      let res := persistRun url store collectorOutput
      .ok res.2 res.1

/-- The per-item accumulation loop shared by all collector fetch paths:
`data = parse(item); if data: results.append(data)` (a returned dict is
always truthy, `None` is falsy). -/
def parseBatch {ι ρ : Type} (parse : ι → Option ρ) (items : List ι) : List ρ :=
  items.filterMap parse

/-- Modelled from the spec: Python 3 `round()` (round half to even), which
section 4.4 of the spec claims the Reddit interaction score applies to
`upvote_ratio * score`.  Stated only to be compared against the source's
`interactionScore`; the source itself uses `int(...)`. -/
def pyRound (q : ℚ) : ℤ :=
  let f := ⌊q⌋
  let r := q - f
  if r < 1/2 then f
  else if 1/2 < r then f + 1
  else if f % 2 = 0 then f else f + 1

/-- The Reddit interaction-score formula as the spec words it:
`round(upvote_ratio * score) + num_comments * 2`. -/
def claimedRedditInteractionScore (upvoteRatio : ℚ) (score numComments : ℤ) : ℤ :=
  pyRound (upvoteRatio * (score : ℚ)) + numComments * 2

/-!  Claim theorems.  -/

/-- C1: for every valid platform, even with Twitter configured, a
`collect_data` run never reaches the persist loop: the coordinator passes the
keyword arguments `query, subreddit, repo, user, time_filter, limit` to the
selected collector, each collector's `collect` accepts only a strict subset
of those names, so the call raises `TypeError`, which the blanket `except`
converts to an HTTP 500 failure instead of the claimed success report. -/
theorem collect_data_always_http500 (α : Type) (url : α → Text)
    (out store : List α) :
    collectData url Platform.reddit true out store = .httpError 500 ∧
    collectData url Platform.github true out store = .httpError 500 ∧
    collectData url Platform.twitter true out store = .httpError 500 :=
  ⟨rfl, rfl, rfl⟩

/-- C5: with no bearer token configured, a Twitter collection run is rejected
with HTTP 400 by a check that runs before `collect` is invoked (the outcome
does not depend on what the collector would return, modelling that no network
call is attempted); the error outcome is distinguishable from any success
outcome, in particular from a success with zero saved records; and the
collector itself takes no fetch path when unconfigured. -/
theorem twitter_not_configured_http400 (α : Type) (url : α → Text)
    (out out' store st : List α) (n : ℕ) (q u : Option Text) (c : ℕ) :
    collectData url Platform.twitter false out store = .httpError 400 ∧
    collectData url Platform.twitter false out store =
      collectData url Platform.twitter false out' store ∧
    (CollectOutcome.httpError 400 : CollectOutcome α) ≠ CollectOutcome.ok n st ∧
    TwitterCollector.collectPlan false q u c = FetchPlan.noFetch :=
  ⟨rfl, rfl, by simp, rfl⟩

/-- C4 (counterexample): a Twitter collection with neither target nor query
does not sweep any curated list — even with the client configured, `collect`
takes no fetch path and returns the empty list (the Twitter module has no
curated account list at all). -/
theorem twitter_default_sweep_counterexample :
    TwitterCollector.collectPlan true none none 50 = FetchPlan.noFetch := rfl

/-- C4 (amended): Reddit and GitHub support the three mutually exclusive
fetch modes with precedence explicit target > explicit query > default sweep
over the first 5 entries of the curated list with `limit // 5` each; Twitter
supports only the first two modes and fetches nothing when neither parameter
is supplied. -/
theorem collect_plan_modes (q t : Option Text) (lim cnt : ℕ) :
    (truthy t = true →
      RedditCollector.collectPlan q t lim = .targeted (t.getD []) lim ∧
      GitHubCollector.collectPlan q t lim = .targeted (t.getD []) lim ∧
      TwitterCollector.collectPlan true q t cnt = .targeted (t.getD []) cnt) ∧
    (truthy t = false → truthy q = true →
      RedditCollector.collectPlan q t lim = .search (q.getD []) lim ∧
      GitHubCollector.collectPlan q t lim = .search (q.getD []) lim ∧
      TwitterCollector.collectPlan true q t cnt = .search (q.getD []) cnt) ∧
    (truthy t = false → truthy q = false →
      RedditCollector.collectPlan q t lim =
        .sweep (RedditCollector.subreddits.take 5) (lim / 5) ∧
      GitHubCollector.collectPlan q t lim =
        .sweep (GitHubCollector.popularRepos.take 5) (lim / 5) ∧
      TwitterCollector.collectPlan true q t cnt = .noFetch) := by
  refine ⟨fun ht => ?_, fun ht hq => ?_, fun ht hq => ?_⟩ <;>
    simp [RedditCollector.collectPlan, GitHubCollector.collectPlan,
      TwitterCollector.collectPlan, ht, *]

/-- Witness for C4's amended theorem at concrete inputs. -/
theorem collect_plan_modes_witness :
    RedditCollector.collectPlan none (some "webdev".toList) 50 =
      .targeted "webdev".toList 50 ∧
    RedditCollector.collectPlan (some "offline".toList) none 50 =
      .search "offline".toList 50 ∧
    RedditCollector.collectPlan none none 50 =
      .sweep (RedditCollector.subreddits.take 5) 10 ∧
    TwitterCollector.collectPlan true none none 7 = .noFetch :=
  ⟨((collect_plan_modes none (some "webdev".toList) 50 50).1 (by decide)).1,
   ((collect_plan_modes (some "offline".toList) none 50 50).2.1 (by decide) (by decide)).1,
   ((collect_plan_modes none none 50 50).2.2 (by decide) (by decide)).1,
   ((collect_plan_modes none none 50 7).2.2 (by decide) (by decide)).2.2⟩

/-- C3 (counterexample): the source computes
`int(upvote_ratio * score + num_comments * 2)`, which truncates; the spec's
`round(upvote_ratio * score) + num_comments * 2` rounds.  At
`upvote_ratio = 0.75` (exactly representable in binary floating point),
`score = 1`, `num_comments = 0` the code yields 0 while the claimed formula
yields 1. -/
theorem reddit_interaction_score_round_counterexample :
    RedditCollector.interactionScore (3/4) 1 0 = 0 ∧
    claimedRedditInteractionScore (3/4) 1 0 = 1 := by
  constructor
  · unfold RedditCollector.interactionScore pyInt
    norm_num [Int.floor_eq_iff]
  · unfold claimedRedditInteractionScore pyRound
    norm_num [Int.floor_eq_iff]

/-- C3 (amended): for non-negative inputs the Reddit interaction score is
`⌊upvote_ratio * score⌋ + num_comments * 2` (truncation, not rounding), it is
non-negative, and the spec's worked example still holds:
`score=100, upvote_ratio=0.9, comments=10 → 110`. -/
theorem reddit_interaction_score_floor (r : ℚ) (s c : ℤ)
    (hr : 0 ≤ r) (hs : 0 ≤ s) (hc : 0 ≤ c) :
    (RedditCollector.interactionScore r s c = ⌊r * (s : ℚ)⌋ + c * 2 ∧
      0 ≤ RedditCollector.interactionScore r s c) ∧
    RedditCollector.interactionScore (9/10) 100 10 = 110 := by
  have hprod : (0 : ℚ) ≤ r * (s : ℚ) := by positivity
  have harg : (0 : ℚ) ≤ r * (s : ℚ) + (c : ℚ) * 2 := by positivity
  have hfloor : RedditCollector.interactionScore r s c = ⌊r * (s : ℚ)⌋ + c * 2 := by
    unfold RedditCollector.interactionScore pyInt
    rw [if_pos harg]
    have : (c : ℚ) * 2 = ((c * 2 : ℤ) : ℚ) := by push_cast; ring
    rw [this, Int.floor_add_int]
  refine ⟨⟨hfloor, ?_⟩, ?_⟩
  · rw [hfloor]
    have h1 : (0 : ℤ) ≤ ⌊r * (s : ℚ)⌋ := Int.floor_nonneg.mpr hprod
    omega
  · unfold RedditCollector.interactionScore pyInt
    norm_num

/-- A concrete normalized record used as counterexample material. -/
def demandA : NormalizedDemand :=
  { content := "this is a bug".toList
    title := some "help".toList
    platform := "reddit".toList
    sourceUrl := "https://reddit.com/r/test/comments/1/help/".toList
    author := some "alice".toList
    authorUrl := none
    timestamp := 0
    upvotes := 3
    comments := 1
    shares := 0
    interactionScore := 3
    sentiment := "neutral".toList
    sentimentScore := 1/2
    tags := ["complaint".toList]
    productMentioned := []
    category := "complaint".toList
    subreddit := some "test".toList
    repository := none
    issueNumber := none
    language := "en".toList }

/-- C2 (counterexample): because the session runs with `autoflush=False`, the
per-record existence check queries only the store as committed before the
run; a collector output that repeats a `source_url` therefore gets persisted
twice in one run — the committed store holds two records with the same
`source_url`, and `saved_count` is 2, not 1 per distinct URL. -/
theorem persist_run_duplicate_counterexample :
    (persistRun NormalizedDemand.sourceUrl [] [demandA, demandA]).2 = 2 ∧
    ¬ ((persistRun NormalizedDemand.sourceUrl [] [demandA, demandA]).1.map
        NormalizedDemand.sourceUrl).Nodup :=
  ⟨by decide, by decide⟩

/-- C2 (amended): the persist loop deduplicates only against the store as of
the start of the run, so when the collector output has pairwise-distinct
`source_url`s (and the store does too) the committed store again has
pairwise-distinct `source_url`s; and re-running the loop with identical
collector output on the committed store inserts nothing — `saved_count` is 0
and the store is unchanged (idempotence under re-run). -/
theorem persist_run_dedup_and_idempotent (α : Type) (url : α → Text)
    (store output : List α) :
    ((store.map url).Nodup → (output.map url).Nodup →
      ((persistRun url store output).1.map url).Nodup) ∧
    persistRun url (persistRun url store output).1 output =
      ((persistRun url store output).1, 0) := by
  constructor
  · intro hs ho
    show ((store ++ newRecords url store output).map url).Nodup
    rw [List.map_append]
    refine List.Nodup.append hs ?_ ?_
    · exact ((List.filter_sublist output).map url).nodup ho
    · intro a ha hb
      rcases List.mem_map.1 ha with ⟨r, hr, hra⟩
      rcases List.mem_map.1 hb with ⟨d, hd, hda⟩
      rcases List.mem_filter.1 hd with ⟨_, hcheck⟩
      rw [Bool.not_eq_true'] at hcheck
      have hnone := (List.any_eq_false).1 hcheck r hr
      exact absurd (hra.trans hda.symm) (by simpa using hnone)
  · have hnil : newRecords url (store ++ newRecords url store output) output = [] := by
      rw [newRecords, List.filter_eq_nil_iff]
      intro d hd
      simp only [Bool.not_eq_true', Bool.not_eq_false]
      rw [List.any_append]
      cases hcase : store.any (fun r => url r == url d) with
      | true => simp
      | false =>
        have hdnew : d ∈ newRecords url store output :=
          List.mem_filter.2 ⟨hd, by rw [hcase]; rfl⟩
        have : (newRecords url store output).any (fun r => url r == url d) = true :=
          List.any_eq_true.2 ⟨d, hdnew, by simp⟩
        simp [this]
    simp [persistRun, hnil]

/-- Witness for C2's amended theorem at a concrete store and output. -/
theorem persist_run_dedup_witness :
    ((persistRun NormalizedDemand.sourceUrl [] [demandA]).1.map
      NormalizedDemand.sourceUrl).Nodup ∧
    persistRun NormalizedDemand.sourceUrl
        (persistRun NormalizedDemand.sourceUrl [] [demandA]).1 [demandA] =
      ((persistRun NormalizedDemand.sourceUrl [] [demandA]).1, 0) :=
  ⟨(persist_run_dedup_and_idempotent NormalizedDemand NormalizedDemand.sourceUrl
      [] [demandA]).1 (by decide) (by decide),
   (persist_run_dedup_and_idempotent NormalizedDemand NormalizedDemand.sourceUrl
      [] [demandA]).2⟩

/-- If no label name hits either keyword set, the label loop of
`_categorize_issue` falls through. -/
theorem labelScan_of_no_hit (ls : List Text)
    (h : ∀ l ∈ ls, GitHubCollector.labelFeature (lower l) = false ∧
      GitHubCollector.labelBug (lower l) = false) :
    GitHubCollector.labelScan ls = none := by
  induction ls with
  | nil => rfl
  | cons l ls ih =>
    have hl := h l (List.mem_cons_self _ _)
    simp only [GitHubCollector.labelScan, hl.1, hl.2, if_false]
    exact ih fun x hx => h x (List.mem_cons_of_mem _ hx)

/-- If some label name hits the feature set and none hits the bug set, the
label loop returns `feature-request`. -/
theorem labelScan_feature_hit (ls : List Text)
    (hex : ∃ l ∈ ls, GitHubCollector.labelFeature (lower l) = true)
    (hall : ∀ l ∈ ls, GitHubCollector.labelBug (lower l) = false) :
    GitHubCollector.labelScan ls = some "feature-request".toList := by
  induction ls with
  | nil => simp at hex
  | cons l ls ih =>
    cases hf : GitHubCollector.labelFeature (lower l) with
    | true => simp [GitHubCollector.labelScan, hf]
    | false =>
      have hb := hall l (List.mem_cons_self _ _)
      simp only [GitHubCollector.labelScan, hf, hb, if_false]
      rcases hex with ⟨x, hx, hfx⟩
      rcases List.mem_cons.1 hx with rfl | hx'
      · rw [hf] at hfx; exact absurd hfx (by simp)
      · exact ih ⟨x, hx', hfx⟩ fun y hy => hall y (List.mem_cons_of_mem _ hy)

/-- If some label name hits the bug set and none hits the feature set, the
label loop returns `bug-report`. -/
theorem labelScan_bug_hit (ls : List Text)
    (hex : ∃ l ∈ ls, GitHubCollector.labelBug (lower l) = true)
    (hall : ∀ l ∈ ls, GitHubCollector.labelFeature (lower l) = false) :
    GitHubCollector.labelScan ls = some "bug-report".toList := by
  induction ls with
  | nil => simp at hex
  | cons l ls ih =>
    have hf := hall l (List.mem_cons_self _ _)
    cases hb : GitHubCollector.labelBug (lower l) with
    | true => simp [GitHubCollector.labelScan, hf, hb]
    | false =>
      simp only [GitHubCollector.labelScan, hf, hb, if_false]
      rcases hex with ⟨x, hx, hbx⟩
      rcases List.mem_cons.1 hx with rfl | hx'
      · rw [hb] at hbx; exact absurd hbx (by simp)
      · exact ih ⟨x, hx', hbx⟩ fun y hy => hall y (List.mem_cons_of_mem _ hy)

/-- C6: GitHub issue classification inspects labels before any title/body
keyword matching: with no label hit it equals the title+body keyword
fallback (feature keywords, then bug keywords, else reject); a label hitting
only the bug set yields `bug-report` whatever the text says, and a label
hitting only the feature set yields `feature-request`; and the spec's
example — label "bug", body containing both "crashes" and "feature" —
classifies as `bug-report`. -/
theorem github_labels_before_keywords (content title : Text) (labels : List Text) :
    ((∀ l ∈ labels, GitHubCollector.labelFeature (lower l) = false ∧
        GitHubCollector.labelBug (lower l) = false) →
      GitHubCollector.categorizeIssue content title labels =
        (if containsAny (lower (title ++ ' ' :: content)) GitHubCollector.featureKeywords
          then some "feature-request".toList
          else if containsAny (lower (title ++ ' ' :: content)) GitHubCollector.bugKeywords
          then some "bug-report".toList
          else none)) ∧
    ((∃ l ∈ labels, GitHubCollector.labelFeature (lower l) = true) →
      (∀ l ∈ labels, GitHubCollector.labelBug (lower l) = false) →
      GitHubCollector.categorizeIssue content title labels =
        some "feature-request".toList) ∧
    ((∃ l ∈ labels, GitHubCollector.labelBug (lower l) = true) →
      (∀ l ∈ labels, GitHubCollector.labelFeature (lower l) = false) →
      GitHubCollector.categorizeIssue content title labels =
        some "bug-report".toList) ∧
    GitHubCollector.categorizeIssue
      "It crashes on startup; adding a feature flag will not help".toList
      "Crash on startup".toList ["bug".toList] = some "bug-report".toList := by
  refine ⟨fun h => ?_, fun hex hall => ?_, fun hex hall => ?_, by decide⟩
  · rw [GitHubCollector.categorizeIssue, labelScan_of_no_hit labels h]
  · rw [GitHubCollector.categorizeIssue, labelScan_feature_hit labels hex hall]
  · rw [GitHubCollector.categorizeIssue, labelScan_bug_hit labels hex hall]

/-- Witness for C6 at a concrete issue whose only label contains "bug". -/
theorem github_labels_before_keywords_witness :
    GitHubCollector.categorizeIssue "body text".toList "title text".toList
      ["my-bug".toList] = some "bug-report".toList :=
  (github_labels_before_keywords "body text".toList "title text".toList
    ["my-bug".toList]).2.2.1 ⟨"my-bug".toList, by decide, by decide⟩ (by decide)

/-- A concrete GitHub issue whose label name coincides with a keyword tag:
label "performance" plus text containing "slow". -/
def perfLabelIssue : GitHubCollector.Issue :=
  { title := "App is slow".toList
    body := some "this is a bug".toList
    labels := ["performance".toList]
    reactionsTotalCount := 2
    commentsCount := 3
    htmlUrl := "https://github.com/octo/app/issues/1".toList
    userLogin := some "bob".toList
    userHtmlUrl := some "https://github.com/bob".toList
    createdAt := 0
    number := 1
    repositoryFullName := some "octo/app".toList }

/-- C7 (counterexample): a GitHub record's tags are the raw label names
concatenated with the keyword-extracted tags, so the same tag can appear
twice: the issue with label "performance" and text containing "slow"
produces tags `["performance", "bug-report", "performance"]`. -/
theorem github_tags_duplicate_counterexample :
    (GitHubCollector.parseIssue (fun _ => 0) none perfLabelIssue).map
        NormalizedDemand.tags =
      some ["performance".toList, "bug-report".toList, "performance".toList] ∧
    ¬ (["performance".toList, "bug-report".toList,
        "performance".toList] : List Text).Nodup :=
  ⟨by decide, by decide⟩

/-- C7 (amended): Reddit and Twitter records have duplicate-free tags by
construction (`list(set(...))`), and GitHub's keyword-extracted tags are
likewise duplicate-free — but a full GitHub record prepends the raw label
names to them, which is what admits duplicates. -/
theorem tags_nodup_amended (f : Text → ℚ) (sub u : Option Text)
    (s : RedditCollector.Submission) (t : TwitterCollector.Tweet)
    (c ti cat : Text) :
    (RedditCollector.parseSubmission f sub s).elim True (fun r => r.tags.Nodup) ∧
    (TwitterCollector.parseTweet f u t).elim True (fun r => r.tags.Nodup) ∧
    (GitHubCollector.extractTags c ti cat).Nodup := by
  refine ⟨?_, ?_, ?_⟩
  · cases h : RedditCollector.categorizePost (RedditCollector.contentOf s) s.title with
    | none => simp [RedditCollector.parseSubmission, h]
    | some cat' =>
      simp [RedditCollector.parseSubmission, h, RedditCollector.extractTags,
        List.nodup_dedup]
  · cases h : TwitterCollector.categorizeTweet t.text with
    | none => simp [TwitterCollector.parseTweet, h]
    | some cat' =>
      simp [TwitterCollector.parseTweet, h, TwitterCollector.extractTags,
        List.nodup_dedup]
  · simp [GitHubCollector.extractTags, List.nodup_dedup]

/-- C8: whenever a collector returns a record, the record's tags contain its
classified category: Reddit and Twitter start the tag set from `[category]`,
and GitHub appends its keyword tag set (also started from `[category]`) to
the label names. -/
theorem tags_contain_category (f : Text → ℚ) (sub rn u : Option Text)
    (s : RedditCollector.Submission) (i : GitHubCollector.Issue)
    (t : TwitterCollector.Tweet) :
    (RedditCollector.parseSubmission f sub s).elim True
      (fun r => r.category ∈ r.tags) ∧
    (GitHubCollector.parseIssue f rn i).elim True
      (fun r => r.category ∈ r.tags) ∧
    (TwitterCollector.parseTweet f u t).elim True
      (fun r => r.category ∈ r.tags) := by
  refine ⟨?_, ?_, ?_⟩
  · cases h : RedditCollector.categorizePost (RedditCollector.contentOf s) s.title with
    | none => simp [RedditCollector.parseSubmission, h]
    | some cat' =>
      simp [RedditCollector.parseSubmission, h, RedditCollector.extractTags,
        List.mem_dedup]
  · cases h : GitHubCollector.categorizeIssue (i.body.getD []) i.title i.labels with
    | none => simp [GitHubCollector.parseIssue, h]
    | some cat' =>
      simp only [GitHubCollector.parseIssue, h]
      split
      · simp
      · simp [GitHubCollector.extractTags, List.mem_append, List.mem_dedup]
  · cases h : TwitterCollector.categorizeTweet t.text with
    | none => simp [TwitterCollector.parseTweet, h]
    | some cat' =>
      simp [TwitterCollector.parseTweet, h, TwitterCollector.extractTags,
        List.mem_dedup]

/-- C9: classifier rejection is a silent filter: an item the per-platform
classifier maps to no category parses to `None` on every platform; the
collector result list contains only successfully parsed records; and the
persist loop adds nothing that was not in the collector output — so a record
with no assignable category never enters the store. -/
theorem classifier_rejection_filters (f : Text → ℚ) (sub rn u : Option Text)
    (s : RedditCollector.Submission) (i : GitHubCollector.Issue)
    (t : TwitterCollector.Tweet) (ι ρ α : Type) (parse : ι → Option ρ)
    (items : List ι) (x : ρ) (url : α → Text) (store output : List α) (rec : α) :
    (RedditCollector.categorizePost (RedditCollector.contentOf s) s.title = none →
      RedditCollector.parseSubmission f sub s = none) ∧
    (GitHubCollector.categorizeIssue (i.body.getD []) i.title i.labels = none →
      GitHubCollector.parseIssue f rn i = none) ∧
    (TwitterCollector.categorizeTweet t.text = none →
      TwitterCollector.parseTweet f u t = none) ∧
    (x ∈ parseBatch parse items → ∃ it ∈ items, parse it = some x) ∧
    (rec ∈ (persistRun url store output).1 → rec ∈ store ∨ rec ∈ output) := by
  refine ⟨fun h => ?_, fun h => ?_, fun h => ?_, fun h => ?_, fun h => ?_⟩
  · simp [RedditCollector.parseSubmission, h]
  · simp [GitHubCollector.parseIssue, h]
  · simp [TwitterCollector.parseTweet, h]
  · exact List.mem_filterMap.1 h
  · rcases List.mem_append.1 h with hl | hr
    · exact Or.inl hl
    · exact Or.inr (List.mem_filter.1 hr).1

/-- A submission whose text matches no Reddit category keyword. -/
def noKeywordSubmission : RedditCollector.Submission :=
  { selftext := "qqq".toList
    title := "zzz".toList
    score := 1
    upvoteRatio := 1/2
    numComments := 0
    permalink := "/r/test/comments/2/zzz/".toList
    author := none
    createdUtc := 0
    subredditName := "test".toList }

/-- Witness for C9 at a concrete unclassifiable submission. -/
theorem classifier_rejection_filters_witness :
    RedditCollector.parseSubmission (fun _ => 0) none noKeywordSubmission = none :=
  (classifier_rejection_filters (fun _ => 0) none none none noKeywordSubmission
    { title := [], body := none, labels := [], reactionsTotalCount := 0,
      commentsCount := 0, htmlUrl := [], userLogin := none, userHtmlUrl := none,
      createdAt := 0, number := 0, repositoryFullName := none }
    { text := [], id := [], createdAt := 0, likeCount := 0, replyCount := 0,
      retweetCount := 0, quoteCount := 0, mentions := [] }
    Unit Unit Unit (fun _ => none) [] () (fun _ => []) [] [] ()).1 (by decide)

/-- C10: the five words "bug", "crash", "error", "fail", "problem" all sit in
the Reddit complaint keyword list, which `_categorize_post` checks before its
bug keyword list; so a text containing any of them and no feature-request
keyword classifies as `complaint`, and `bug-report` is reachable only through
"doesn\x27t work", "not working" or "glitch" (with no request keyword and no
complaint keyword present). -/
theorem reddit_complaint_shadows_bug (content title : Text) :
    (containsAny (lower (title ++ ' ' :: content))
        (kws ["bug", "crash", "error", "fail", "problem"]) = true →
      containsAny (lower (title ++ ' ' :: content))
        RedditCollector.requestKeywords = false →
      RedditCollector.categorizePost content title = some "complaint".toList) ∧
    (RedditCollector.categorizePost content title = some "bug-report".toList →
      containsAny (lower (title ++ ' ' :: content))
          (kws ["doesn\x27t work", "not working", "glitch"]) = true ∧
        containsAny (lower (title ++ ' ' :: content))
          RedditCollector.requestKeywords = false ∧
        containsAny (lower (title ++ ' ' :: content))
          RedditCollector.complaintKeywords = false) := by
  constructor
  · intro h5 hreq
    have hcomp : containsAny (lower (title ++ ' ' :: content))
        RedditCollector.complaintKeywords = true := by
      rcases List.any_eq_true.1 h5 with ⟨kw, hkw, hsub⟩
      refine List.any_eq_true.2 ⟨kw, ?_, hsub⟩
      have hsubset : ∀ x ∈ kws ["bug", "crash", "error", "fail", "problem"],
          x ∈ RedditCollector.complaintKeywords := by decide
      exact hsubset kw hkw
    simp [RedditCollector.categorizePost, hreq, hcomp]
  · intro hres
    simp only [RedditCollector.categorizePost] at hres
    split_ifs at hres with h1 h2 h3 h4 h5
    · exact absurd hres (by decide)
    · exact absurd hres (by decide)
    · have h1' : containsAny (lower (title ++ ' ' :: content))
          RedditCollector.requestKeywords = false := by simpa using h1
      have h2' : containsAny (lower (title ++ ' ' :: content))
          RedditCollector.complaintKeywords = false := by simpa using h2
      refine ⟨?_, h1', h2'⟩
      rcases List.any_eq_true.1 h3 with ⟨kw, hkw, hsub⟩
      have hnotc := List.any_eq_false.1 h2'
      have hkw' : kw = "bug".toList ∨ kw = "crash".toList ∨ kw = "error".toList ∨
          kw = "doesn\x27t work".toList ∨ kw = "not working".toList ∨
          kw = "glitch".toList := by
        simpa [RedditCollector.bugKeywords, kws] using hkw
      rcases hkw' with rfl | rfl | rfl | rfl | rfl | rfl
      · exact absurd hsub (hnotc "bug".toList (by decide))
      · exact absurd hsub (hnotc "crash".toList (by decide))
      · exact absurd hsub (hnotc "error".toList (by decide))
      · exact List.any_eq_true.2 ⟨_, by decide, hsub⟩
      · exact List.any_eq_true.2 ⟨_, by decide, hsub⟩
      · exact List.any_eq_true.2 ⟨_, by decide, hsub⟩
    · exact absurd hres (by decide)
    · exact absurd hres (by decide)

/-- Witness for C10 at a concrete post containing "bug" and no request
keyword. -/
theorem reddit_complaint_shadows_bug_witness :
    RedditCollector.categorizePost "this is a bug".toList "help".toList =
      some "complaint".toList :=
  (reddit_complaint_shadows_bug "this is a bug".toList "help".toList).1
    (by decide) (by decide)

/-- Witness for C3's amended theorem at the spec's worked example. -/
theorem reddit_interaction_score_floor_witness :
    RedditCollector.interactionScore (9/10) 100 10 = ⌊(9/10 : ℚ) * ((100 : ℤ) : ℚ)⌋ + 10 * 2 ∧
    0 ≤ RedditCollector.interactionScore (9/10) 100 10 :=
  (reddit_interaction_score_floor (9/10) 100 10 (by norm_num) (by norm_num)
    (by norm_num)).1
